import Mathlib

/-!
Shallow embedding of the Windows wakelock plugin of this repository
(`windows/runner/wakelock_plugin.cpp` and `windows/runner/wakelock_plugin.h`).

The plugin keeps one process-wide boolean `is_wakelock_enabled` and, on
state transitions only, calls the OS API `SetThreadExecutionState` with one
of two flag combinations.  We model the OS interaction as a trace of the
flag arguments passed to `SetThreadExecutionState`, most recent call first,
carried alongside the boolean in a `PluginState`.
-/

namespace WakelockSpec

/-- Windows execution-state flag `ES_CONTINUOUS` (0x80000000). -/
def ES_CONTINUOUS : Nat := 0x80000000

/-- Windows execution-state flag `ES_SYSTEM_REQUIRED` (0x00000001). -/
def ES_SYSTEM_REQUIRED : Nat := 0x00000001

/-- Windows execution-state flag `ES_DISPLAY_REQUIRED` (0x00000002). -/
def ES_DISPLAY_REQUIRED : Nat := 0x00000002

/-- The argument `EnableWakelock` passes to the OS call:
`ES_CONTINUOUS | ES_DISPLAY_REQUIRED | ES_SYSTEM_REQUIRED`
(wakelock_plugin.cpp, line 64). -/
def enableRequest : Nat :=
  Nat.lor (Nat.lor ES_CONTINUOUS ES_DISPLAY_REQUIRED) ES_SYSTEM_REQUIRED

/-- Program state: the process-wide boolean
`static bool is_wakelock_enabled` together with the trace of arguments
passed to `SetThreadExecutionState` so far (most recent call first). -/
structure PluginState where
  is_wakelock_enabled : Bool
  osCalls : List Nat
deriving DecidableEq, Repr

/-- Initial state at process start:
`static bool is_wakelock_enabled = false;`, and no OS call issued yet. -/
def initState : PluginState := { is_wakelock_enabled := false, osCalls := [] }

/-- Effect of `SetThreadExecutionState(flags)` on the model: record the
request on the trace.  The return value is never inspected by the plugin. -/
def SetThreadExecutionState (flags : Nat) (s : PluginState) : PluginState :=
  { s with osCalls := flags :: s.osCalls }

/-- `WakelockPlugin::EnableWakelock` (wakelock_plugin.cpp, lines 58-67):
if the flag is not set, call the OS with
`ES_CONTINUOUS | ES_DISPLAY_REQUIRED | ES_SYSTEM_REQUIRED` and set the flag. -/
def EnableWakelock (s : PluginState) : PluginState :=
  if !s.is_wakelock_enabled then
    { SetThreadExecutionState enableRequest s with is_wakelock_enabled := true }
  else s

/-- `WakelockPlugin::DisableWakelock` (wakelock_plugin.cpp, lines 69-75):
if the flag is set, call the OS with `ES_CONTINUOUS` and clear the flag. -/
def DisableWakelock (s : PluginState) : PluginState :=
  if s.is_wakelock_enabled then
    { SetThreadExecutionState ES_CONTINUOUS s with is_wakelock_enabled := false }
  else s

/-- `WakelockPlugin::~WakelockPlugin` (wakelock_plugin.cpp, lines 39-42):
the destructor calls `DisableWakelock()`. -/
def destroyWakelockPlugin (s : PluginState) : PluginState :=
  DisableWakelock s

/-- Fragment of `flutter::EncodableValue` relevant here: the plugin only
ever constructs `EncodableValue(true)`, while an incoming call may carry an
arbitrary argument payload (never inspected). -/
inductive EncodableValue where
  | nullVal : EncodableValue
  | boolVal : Bool → EncodableValue
  | intVal : Int → EncodableValue
  | stringVal : String → EncodableValue
deriving DecidableEq, Repr

/-- A method call arriving on the `com.alnitak/wakelock` channel: a method
name plus an optional argument payload. -/
structure MethodCall where
  method_name : String
  arguments : Option EncodableValue
deriving DecidableEq, Repr

/-- Reply sent through the `flutter::MethodResult`: either
`result->Success(v)` or `result->NotImplemented()`. -/
inductive Reply where
  | success : EncodableValue → Reply
  | notImplemented : Reply
deriving DecidableEq, Repr

/-- `WakelockPlugin::HandleMethodCall` (wakelock_plugin.cpp, lines 44-56):
dispatch on the method name; `"enableWindows"` runs `EnableWakelock` and
replies `Success(true)`, `"disableWindows"` runs `DisableWakelock` and
replies `Success(true)`, anything else replies `NotImplemented`. -/
def HandleMethodCall (call : MethodCall) (s : PluginState) : PluginState × Reply :=
  if call.method_name = "enableWindows" then
    (EnableWakelock s, Reply.success (EncodableValue.boolVal true))
  else if call.method_name = "disableWindows" then
    (DisableWakelock s, Reply.success (EncodableValue.boolVal true))
  else
    (s, Reply.notImplemented)

/-- An `Enable()`/`Disable()` call, for reasoning about call sequences. -/
inductive Op where
  | enable : Op
  | disable : Op
deriving DecidableEq, Repr

/-- Apply one `Enable()`/`Disable()` call to the state. -/
def applyOp (s : PluginState) : Op → PluginState
  | Op.enable => EnableWakelock s
  | Op.disable => DisableWakelock s

/-- Run a sequence of `Enable()`/`Disable()` calls, first element first. -/
def runOps (ops : List Op) (s : PluginState) : PluginState :=
  ops.foldl applyOp s

/-- The OS request a given call issues when it does issue one. -/
def requestOf : Op → Nat
  | Op.enable => enableRequest
  | Op.disable => ES_CONTINUOUS

/-- The observable OS execution-state request after a run: the most recent
`SetThreadExecutionState` argument, or the OS default continuous execution
state when the program has issued no call yet. -/
def observableRequest (s : PluginState) : Nat :=
  s.osCalls.head?.getD ES_CONTINUOUS

/-- Run a sequence of channel method calls through `HandleMethodCall`,
keeping the resulting state. -/
def handleAll (calls : List MethodCall) (s : PluginState) : PluginState :=
  calls.foldl (fun t c => (HandleMethodCall c t).1) s

/-- Reachability invariant: when the flag is set the most recent OS request
is the sleep-prevention request, when clear it is absent or the default
continuous request, and every recorded request is one of the two flag
combinations the program ever uses. -/
def StateInv (s : PluginState) : Prop :=
  (s.is_wakelock_enabled = true → s.osCalls.head? = some enableRequest) ∧
  (s.is_wakelock_enabled = false →
    s.osCalls.head? = none ∨ s.osCalls.head? = some ES_CONTINUOUS) ∧
  ∀ r ∈ s.osCalls, r = enableRequest ∨ r = ES_CONTINUOUS

lemma stateInv_init : StateInv initState := by
  refine ⟨?_, ?_, ?_⟩ <;> simp [initState, StateInv]

lemma enable_sets_flag (s : PluginState) :
    (EnableWakelock s).is_wakelock_enabled = true := by
  cases hb : s.is_wakelock_enabled <;>
    simp [EnableWakelock, SetThreadExecutionState, hb]

lemma disable_clears_flag (s : PluginState) :
    (DisableWakelock s).is_wakelock_enabled = false := by
  cases hb : s.is_wakelock_enabled <;>
    simp [DisableWakelock, SetThreadExecutionState, hb]

lemma enable_of_disabled (s : PluginState) (h : s.is_wakelock_enabled = false) :
    EnableWakelock s =
      { is_wakelock_enabled := true, osCalls := enableRequest :: s.osCalls } := by
  simp [EnableWakelock, SetThreadExecutionState, h]

lemma enable_noop (s : PluginState) (h : s.is_wakelock_enabled = true) :
    EnableWakelock s = s := by
  simp [EnableWakelock, h]

lemma disable_of_enabled (s : PluginState) (h : s.is_wakelock_enabled = true) :
    DisableWakelock s =
      { is_wakelock_enabled := false, osCalls := ES_CONTINUOUS :: s.osCalls } := by
  simp [DisableWakelock, SetThreadExecutionState, h]

lemma disable_noop (s : PluginState) (h : s.is_wakelock_enabled = false) :
    DisableWakelock s = s := by
  simp [DisableWakelock, h]

lemma stateInv_enable (s : PluginState) (hs : StateInv s) :
    StateInv (EnableWakelock s) := by
  cases hb : s.is_wakelock_enabled
  · rw [enable_of_disabled s hb]
    refine ⟨?_, ?_, ?_⟩
    · intro _; rfl
    · intro h; simp at h
    · intro r hr
      rcases List.mem_cons.mp hr with h | h
      · exact Or.inl h
      · exact hs.2.2 r h
  · rw [enable_noop s hb]; exact hs

lemma stateInv_disable (s : PluginState) (hs : StateInv s) :
    StateInv (DisableWakelock s) := by
  cases hb : s.is_wakelock_enabled
  · rw [disable_noop s hb]; exact hs
  · rw [disable_of_enabled s hb]
    refine ⟨?_, ?_, ?_⟩
    · intro h; simp at h
    · intro _; exact Or.inr rfl
    · intro r hr
      rcases List.mem_cons.mp hr with h | h
      · exact Or.inr h
      · exact hs.2.2 r h

lemma stateInv_applyOp (s : PluginState) (op : Op) (hs : StateInv s) :
    StateInv (applyOp s op) := by
  cases op
  · exact stateInv_enable s hs
  · exact stateInv_disable s hs

lemma stateInv_runOps (ops : List Op) (s : PluginState) (hs : StateInv s) :
    StateInv (runOps ops s) := by
  induction ops generalizing s with
  | nil => exact hs
  | cons op ops ih =>
      simpa [runOps] using ih (applyOp s op) (stateInv_applyOp s op hs)

lemma stateInv_handle (call : MethodCall) (s : PluginState) (hs : StateInv s) :
    StateInv (HandleMethodCall call s).1 := by
  by_cases h1 : call.method_name = "enableWindows"
  · simpa [HandleMethodCall, h1] using stateInv_enable s hs
  · by_cases h2 : call.method_name = "disableWindows"
    · simpa [HandleMethodCall, h1, h2] using stateInv_disable s hs
    · simpa [HandleMethodCall, h1, h2] using hs

lemma stateInv_handleAll (calls : List MethodCall) (s : PluginState)
    (hs : StateInv s) : StateInv (handleAll calls s) := by
  induction calls generalizing s with
  | nil => exact hs
  | cons c calls ih =>
      simpa [handleAll] using
        ih (HandleMethodCall c s).1 (stateInv_handle c s hs)

lemma stateInv_destroy (s : PluginState) (hs : StateInv s) :
    StateInv (destroyWakelockPlugin s) :=
  stateInv_disable s hs

lemma runOps_append_single (ops : List Op) (op : Op) (s : PluginState) :
    runOps (ops ++ [op]) s = applyOp (runOps ops s) op := by
  simp [runOps, List.foldl_append]

lemma enableRequest_ne_continuous : enableRequest ≠ ES_CONTINUOUS := by
  decide

lemma observableRequest_of_head (s : PluginState) (x : Nat)
    (h : s.osCalls.head? = some x) : observableRequest s = x := by
  simp only [observableRequest, h, Option.getD_some]

lemma observableRequest_of_none (s : PluginState)
    (h : s.osCalls.head? = none) : observableRequest s = ES_CONTINUOUS := by
  simp only [observableRequest, h, Option.getD_none]

lemma stateInv_flag_iff (s : PluginState) (hs : StateInv s) :
    s.is_wakelock_enabled = true ↔ s.osCalls.head? = some enableRequest := by
  constructor
  · exact hs.1
  · intro h
    cases hb : s.is_wakelock_enabled
    · rcases hs.2.1 hb with h0 | h0
      · rw [h0] at h; exact absurd h (by simp)
      · rw [h0] at h
        exact absurd (Option.some.inj h).symm enableRequest_ne_continuous
    · rfl

/-- C1: after any nonempty sequence of `Enable()`/`Disable()` calls from the
initial state, the observable OS execution-state request equals the request
corresponding to the last call of the sequence, and repeating the last call
leaves the whole state — OS-call trace included — unchanged, so two
consecutive identical calls issue the OS call only once. -/
theorem c1_last_call_determines_request (pre : List Op) (op : Op) :
    observableRequest (runOps (pre ++ [op]) initState) = requestOf op ∧
    runOps (pre ++ [op, op]) initState = runOps (pre ++ [op]) initState := by
  have hinv : StateInv (runOps pre initState) :=
    stateInv_runOps pre initState stateInv_init
  have h1 : runOps (pre ++ [op]) initState = applyOp (runOps pre initState) op :=
    runOps_append_single pre op initState
  have h2 : runOps (pre ++ [op, op]) initState =
      applyOp (applyOp (runOps pre initState) op) op := by
    have hsplit : pre ++ [op, op] = (pre ++ [op]) ++ [op] := by simp
    rw [hsplit, runOps_append_single, h1]
  constructor
  · rw [h1]
    cases op
    · cases hb : (runOps pre initState).is_wakelock_enabled
      · show observableRequest (EnableWakelock (runOps pre initState)) = _
        rw [enable_of_disabled _ hb]
        exact observableRequest_of_head _ _ rfl
      · show observableRequest (EnableWakelock (runOps pre initState)) = _
        rw [enable_noop _ hb]
        exact observableRequest_of_head _ _ (hinv.1 hb)
    · cases hb : (runOps pre initState).is_wakelock_enabled
      · show observableRequest (DisableWakelock (runOps pre initState)) = _
        rw [disable_noop _ hb]
        rcases hinv.2.1 hb with h0 | h0
        · exact observableRequest_of_none _ h0
        · exact observableRequest_of_head _ _ h0
      · show observableRequest (DisableWakelock (runOps pre initState)) = _
        rw [disable_of_enabled _ hb]
        exact observableRequest_of_head _ _ rfl
  · rw [h2, h1]
    cases op
    · exact enable_noop _ (enable_sets_flag (runOps pre initState))
    · exact disable_noop _ (disable_clears_flag (runOps pre initState))

/-- C2: in any state with the flag `false`, `EnableWakelock` pushes exactly
one OS call with `ES_CONTINUOUS | ES_DISPLAY_REQUIRED | ES_SYSTEM_REQUIRED`
onto the trace and sets the flag to `true`; in any state with the flag
already `true`, it is a strict no-op (no OS call, flag unchanged). -/
theorem c2_enable_contract (s : PluginState) :
    (s.is_wakelock_enabled = false →
      EnableWakelock s =
        { is_wakelock_enabled := true, osCalls := enableRequest :: s.osCalls }) ∧
    (s.is_wakelock_enabled = true → EnableWakelock s = s) :=
  ⟨fun h => enable_of_disabled s h, fun h => enable_noop s h⟩

/-- Witness for C2: concrete evaluation on the initial state and on an
already-enabled state. -/
theorem c2_enable_contract_witness :
    EnableWakelock initState =
      { is_wakelock_enabled := true, osCalls := [enableRequest] } ∧
    EnableWakelock { is_wakelock_enabled := true, osCalls := [enableRequest] } =
      { is_wakelock_enabled := true, osCalls := [enableRequest] } :=
  ⟨(c2_enable_contract initState).1 rfl,
   (c2_enable_contract
     { is_wakelock_enabled := true, osCalls := [enableRequest] }).2 rfl⟩

/-- C3: in any state with the flag `true`, `DisableWakelock` pushes exactly
one OS call with `ES_CONTINUOUS` (a request in which the display-required
and system-required bits are both clear) onto the trace and clears the
flag; in any state with the flag already `false`, it is a strict no-op. -/
theorem c3_disable_contract (s : PluginState) :
    (s.is_wakelock_enabled = true →
      DisableWakelock s =
        { is_wakelock_enabled := false, osCalls := ES_CONTINUOUS :: s.osCalls }) ∧
    (s.is_wakelock_enabled = false → DisableWakelock s = s) ∧
    Nat.land ES_CONTINUOUS ES_DISPLAY_REQUIRED = 0 ∧
    Nat.land ES_CONTINUOUS ES_SYSTEM_REQUIRED = 0 :=
  ⟨fun h => disable_of_enabled s h, fun h => disable_noop s h,
   by decide, by decide⟩

/-- Witness for C3: concrete evaluation on an enabled state and on the
initial (disabled) state. -/
theorem c3_disable_contract_witness :
    DisableWakelock { is_wakelock_enabled := true, osCalls := [enableRequest] } =
      { is_wakelock_enabled := false,
        osCalls := [ES_CONTINUOUS, enableRequest] } ∧
    DisableWakelock initState = initState :=
  ⟨(c3_disable_contract
     { is_wakelock_enabled := true, osCalls := [enableRequest] }).1 rfl,
   (c3_disable_contract initState).2.1 rfl⟩

/-- C4: `HandleMethodCall` dispatches exactly on the method name, in every
state: `"enableWindows"` runs `EnableWakelock` and replies success `true`,
`"disableWindows"` runs `DisableWakelock` and replies success `true`, and
any other name replies not-implemented and leaves the state untouched
(so neither `EnableWakelock` nor `DisableWakelock` takes effect). -/
theorem c4_dispatch (call : MethodCall) (s : PluginState) :
    (call.method_name = "enableWindows" →
      HandleMethodCall call s =
        (EnableWakelock s, Reply.success (EncodableValue.boolVal true))) ∧
    (call.method_name = "disableWindows" →
      HandleMethodCall call s =
        (DisableWakelock s, Reply.success (EncodableValue.boolVal true))) ∧
    (call.method_name ≠ "enableWindows" → call.method_name ≠ "disableWindows" →
      HandleMethodCall call s = (s, Reply.notImplemented)) := by
  refine ⟨fun h => ?_, fun h => ?_, fun h1 h2 => ?_⟩
  · simp [HandleMethodCall, h]
  · simp [HandleMethodCall, h]
  · simp [HandleMethodCall, h1, h2]

/-- Witness for C4: concrete dispatch of the three method-name cases from
the initial state. -/
theorem c4_dispatch_witness :
    HandleMethodCall { method_name := "enableWindows", arguments := none }
        initState =
      (EnableWakelock initState, Reply.success (EncodableValue.boolVal true)) ∧
    HandleMethodCall { method_name := "disableWindows", arguments := none }
        initState =
      (DisableWakelock initState, Reply.success (EncodableValue.boolVal true)) ∧
    HandleMethodCall { method_name := "foo", arguments := none } initState =
      (initState, Reply.notImplemented) :=
  ⟨(c4_dispatch { method_name := "enableWindows", arguments := none }
      initState).1 rfl,
   (c4_dispatch { method_name := "disableWindows", arguments := none }
      initState).2.1 rfl,
   (c4_dispatch { method_name := "foo", arguments := none } initState).2.2
      (by decide) (by decide)⟩

/-- C5: destroying the plugin runs exactly the `DisableWakelock` logic, in
every state; in particular, when destroyed with the flag `true` it issues
the `ES_CONTINUOUS` OS call exactly once and clears the flag, so no
sleep-prevention request outlives the instance. -/
theorem c5_destructor (s : PluginState) :
    destroyWakelockPlugin s = DisableWakelock s ∧
    (s.is_wakelock_enabled = true →
      destroyWakelockPlugin s =
        { is_wakelock_enabled := false, osCalls := ES_CONTINUOUS :: s.osCalls }) :=
  ⟨rfl, fun h => disable_of_enabled s h⟩

/-- Witness for C5: destroying a held (enabled) plugin instance. -/
theorem c5_destructor_witness :
    destroyWakelockPlugin
        { is_wakelock_enabled := true, osCalls := [enableRequest] } =
      DisableWakelock
        { is_wakelock_enabled := true, osCalls := [enableRequest] } ∧
    destroyWakelockPlugin
        { is_wakelock_enabled := true, osCalls := [enableRequest] } =
      { is_wakelock_enabled := false,
        osCalls := [ES_CONTINUOUS, enableRequest] } :=
  ⟨(c5_destructor
      { is_wakelock_enabled := true, osCalls := [enableRequest] }).1,
   (c5_destructor
      { is_wakelock_enabled := true, osCalls := [enableRequest] }).2 rfl⟩

/-- C6: the flag starts `false` at process start, and in every state
reachable through the channel handler — including after the teardown
`DisableWakelock` run — the flag is `true` exactly when the most recent OS
call requested sleep prevention
(`ES_CONTINUOUS | ES_DISPLAY_REQUIRED | ES_SYSTEM_REQUIRED`). -/
theorem c6_flag_reflects_last_request :
    initState.is_wakelock_enabled = false ∧
    ∀ calls : List MethodCall,
      ((handleAll calls initState).is_wakelock_enabled = true ↔
        (handleAll calls initState).osCalls.head? = some enableRequest) ∧
      ((destroyWakelockPlugin (handleAll calls initState)).is_wakelock_enabled
          = true ↔
        (destroyWakelockPlugin
            (handleAll calls initState)).osCalls.head? = some enableRequest) := by
  refine ⟨rfl, fun calls => ?_⟩
  have h1 : StateInv (handleAll calls initState) :=
    stateInv_handleAll calls initState stateInv_init
  exact ⟨stateInv_flag_iff _ h1,
    stateInv_flag_iff _ (stateInv_destroy _ h1)⟩

/-- C7: handling a request whose method name is neither `"enableWindows"`
nor `"disableWindows"` replies not-implemented and returns the state
unchanged — the flag keeps its value and no OS call is recorded — in every
state of the flag. -/
theorem c7_unknown_method_frame (call : MethodCall) (s : PluginState)
    (h1 : call.method_name ≠ "enableWindows")
    (h2 : call.method_name ≠ "disableWindows") :
    HandleMethodCall call s = (s, Reply.notImplemented) := by
  simp [HandleMethodCall, h1, h2]

/-- Witness for C7: the unknown method `"foo"` on the initial state. -/
theorem c7_unknown_method_frame_witness :
    HandleMethodCall { method_name := "foo", arguments := none } initState =
      (initState, Reply.notImplemented) :=
  c7_unknown_method_frame { method_name := "foo", arguments := none }
    initState (by decide) (by decide)

/-- C8: `HandleMethodCall` never inspects the argument payload: two calls
with the same method name and the same starting state produce the same
reply and the same resulting state whatever their arguments are, missing
arguments included. -/
theorem c8_arguments_ignored (name : String) (a b : Option EncodableValue)
    (s : PluginState) :
    HandleMethodCall { method_name := name, arguments := a } s =
      HandleMethodCall { method_name := name, arguments := b } s := rfl

/-- C9: destroying the plugin while the flag is `false` is observationally
a no-op: the state — flag and OS-call trace alike — is returned unchanged,
so no OS call is issued at all. -/
theorem c9_destroy_released_noop (s : PluginState)
    (h : s.is_wakelock_enabled = false) :
    destroyWakelockPlugin s = s :=
  disable_noop s h

/-- Witness for C9: destroying a never-enabled plugin instance. -/
theorem c9_destroy_released_noop_witness :
    destroyWakelockPlugin initState = initState :=
  c9_destroy_released_noop initState rfl

/-- C10: every OS execution-state request the program ever issues — across
any sequence of channel method calls followed by teardown — is one of the
two combinations `ES_CONTINUOUS | ES_DISPLAY_REQUIRED | ES_SYSTEM_REQUIRED`
or `ES_CONTINUOUS`, and in particular always has the `ES_CONTINUOUS` bit
set: no one-shot, non-continuous request is ever made. -/
theorem c10_all_requests_continuous (calls : List MethodCall) (r : Nat)
    (h : r ∈ (destroyWakelockPlugin (handleAll calls initState)).osCalls) :
    (r = enableRequest ∨ r = ES_CONTINUOUS) ∧
    Nat.land r ES_CONTINUOUS = ES_CONTINUOUS := by
  have hinv : StateInv (destroyWakelockPlugin (handleAll calls initState)) :=
    stateInv_destroy _ (stateInv_handleAll calls initState stateInv_init)
  have hr := hinv.2.2 r h
  refine ⟨hr, ?_⟩
  rcases hr with h0 | h0 <;> rw [h0] <;> decide

/-- Witness for C10: the trace after enabling once and tearing down
contains the `ES_CONTINUOUS` request, and it satisfies the property. -/
theorem c10_all_requests_continuous_witness :
    ES_CONTINUOUS ∈
      (destroyWakelockPlugin
        (handleAll [{ method_name := "enableWindows", arguments := none }]
          initState)).osCalls ∧
    ((ES_CONTINUOUS = enableRequest ∨ ES_CONTINUOUS = ES_CONTINUOUS) ∧
      Nat.land ES_CONTINUOUS ES_CONTINUOUS = ES_CONTINUOUS) :=
  ⟨by decide,
   c10_all_requests_continuous
     [{ method_name := "enableWindows", arguments := none }] ES_CONTINUOUS
     (by decide)⟩

end WakelockSpec
